import Mathlib

/-!
# noise_temp_meter: the configuration header `config.h`

A shallow embedding of `src/Arduino/noise_temp_meter/config.h`.  The header
holds no control flow; it is a list of initialised declarations.  Each
declaration is embedded twice:

* its *value* (the initialiser, stored through the declared C++ type), under
  the name the header gives it;
* its *declarator* (base type, `const` qualifier, pointer or array shape) as an
  entry of `configDecls`, in the order of the header.
-/

namespace NoiseTempMeter

/-! ## Machine integers -/

/-- Storing `x` in an unsigned integer type of `w` bits. -/
def wrapUnsigned (w : Nat) (x : Int) : Int :=
  x % 2 ^ w

/-- Storing `x` in a two's complement signed integer type of `w` bits. -/
def wrapSigned (w : Nat) (x : Int) : Int :=
  let m := x % 2 ^ w
  if m < 2 ^ (w - 1) then m else m - 2 ^ w

/-- Storing `x` in a `short` (16 bits, signed). -/
def toShort (x : Int) : Int :=
  wrapSigned 16 x

/-- Storing `x` in a `byte` (8 bits, unsigned). -/
def toByte (x : Int) : Nat :=
  (wrapUnsigned 8 x).toNat

/-! ## Values of `config.h` -/

/-- Line 2: `const char *MY_WIFI_SSID = "your_ssid";`. -/
def MY_WIFI_SSID : String := "your_ssid"

/-- Line 3: `const char *MY_WIFI_PASSWORD = "your_password";`. -/
def MY_WIFI_PASSWORD : String := "your_password"

/-- Line 7: `const word UDP_LOG_PORT = 6464;`.  `word` is declared by the
Arduino core, not by this repository (16 bits on AVR and ESP8266, 32 bits on
ESP32), so its width is a parameter. -/
def UDP_LOG_PORT (wordBits : Nat) : Int := wrapUnsigned wordBits 6464

/-- Line 9: `const byte UDP_LOG_PC_IP_BYTES[4] = {192, 168, 178, 100};`. -/
def UDP_LOG_PC_IP_BYTES : List Nat := [192, 168, 178, 100].map toByte

/-- Line 11: `const char *NET_MDNSNAME = "ESP_MQTT";`. -/
def NET_MDNSNAME : String := "ESP_MQTT"

/-- Line 13: `const char *NET_HOSTNAME = "ESP_MQTT";`. -/
def NET_HOSTNAME : String := "ESP_MQTT"

/-- Line 15: `const byte NET_LOCAL_IP_BYTES[4] = {192, 168, 178, 155};`. -/
def NET_LOCAL_IP_BYTES : List Nat := [192, 168, 178, 155].map toByte

/-- Line 16: `const byte NET_GATEWAY_BYTES[4] = {192, 168, 178, 1};`. -/
def NET_GATEWAY_BYTES : List Nat := [192, 168, 178, 1].map toByte

/-- Line 17: `const byte NET_MASK_BYTES[4] = {255,255,255,0};`. -/
def NET_MASK_BYTES : List Nat := [255, 255, 255, 0].map toByte

/-- Line 18: `const byte NET_DNS_BYTES[4] = {8,8,8,8};`. -/
def NET_DNS_BYTES : List Nat := [8, 8, 8, 8].map toByte

/-- Line 20: `const char *MY_OTA_NAME = "esp_mqtt";`. -/
def MY_OTA_NAME : String := "esp_mqtt"

/-- Line 22: `const char *MY_OTA_PASS_HASH = "myHash";`. -/
def MY_OTA_PASS_HASH : String := "myHash"

/-- Line 25: `const char *MQTT_SERVER = "192.168.178.222";`. -/
def MQTT_SERVER : String := "192.168.178.222"

/-- Line 26: `const long PUBLISH_TIME = 10000;` (`long` is 32 bits, signed). -/
def PUBLISH_TIME : Int := wrapSigned 32 10000

/-- Line 27: `const int MQTT_MAXIMUM_PACKET_SIZE = 1024;`.  The width of `int`
depends on the board (16 bits on AVR, 32 bits on ESP), so it is a parameter. -/
def MQTT_MAXIMUM_PACKET_SIZE (intBits : Nat) : Int := wrapSigned intBits 1024

/-- Line 28: `const char *MQTT_CLIENT_ID = "noise_1234";`. -/
def MQTT_CLIENT_ID : String := "noise_1234"

/-- Line 29: `String MQTT_TOPIC_OUT = "mqtt_test/data";`. -/
def MQTT_TOPIC_OUT : String := "mqtt_test/data"

/-- Line 30: `String MQTT_TOPIC_IN = "mqtt_test/command";`. -/
def MQTT_TOPIC_IN : String := "mqtt_test/command"

/-- Line 31: `const short MY_MQTT_PORT = 1883;`. -/
def MY_MQTT_PORT : Int := toShort 1883

/-- Line 33: `const char *MY_MQTT_USER = "me";`. -/
def MY_MQTT_USER : String := "me"

/-- Line 34: `const char *MY_MQTT_PASS = "meagain";`. -/
def MY_MQTT_PASS : String := "meagain"

/-! ## Declarators of `config.h` -/

/-- Base types written in the declarations of `config.h`. -/
inductive BaseType where
  | char
  | byte
  | word
  | short
  | int
  | long
  | arduinoString
  deriving DecidableEq, Repr

/-- Declarator shapes: `T x`, `T x[n]`, and `T *x` (with `constPointer` set
for `T *const x`, which `config.h` never writes). -/
inductive Shape where
  | plain
  | array (len : Nat)
  | pointer (constPointer : Bool)
  deriving DecidableEq, Repr

/-- One declaration: `constBase` records a `const` in front of the base type. -/
structure Decl where
  name : String
  constBase : Bool
  base : BaseType
  shape : Shape
  deriving DecidableEq, Repr

/-- The declarations of `config.h`, in source order. -/
def configDecls : List Decl :=
  [ ⟨"MY_WIFI_SSID", true, .char, .pointer false⟩,
    ⟨"MY_WIFI_PASSWORD", true, .char, .pointer false⟩,
    ⟨"UDP_LOG_PORT", true, .word, .plain⟩,
    ⟨"UDP_LOG_PC_IP_BYTES", true, .byte, .array 4⟩,
    ⟨"NET_MDNSNAME", true, .char, .pointer false⟩,
    ⟨"NET_HOSTNAME", true, .char, .pointer false⟩,
    ⟨"NET_LOCAL_IP_BYTES", true, .byte, .array 4⟩,
    ⟨"NET_GATEWAY_BYTES", true, .byte, .array 4⟩,
    ⟨"NET_MASK_BYTES", true, .byte, .array 4⟩,
    ⟨"NET_DNS_BYTES", true, .byte, .array 4⟩,
    ⟨"MY_OTA_NAME", true, .char, .pointer false⟩,
    ⟨"MY_OTA_PASS_HASH", true, .char, .pointer false⟩,
    ⟨"MQTT_SERVER", true, .char, .pointer false⟩,
    ⟨"PUBLISH_TIME", true, .long, .plain⟩,
    ⟨"MQTT_MAXIMUM_PACKET_SIZE", true, .int, .plain⟩,
    ⟨"MQTT_CLIENT_ID", true, .char, .pointer false⟩,
    ⟨"MQTT_TOPIC_OUT", false, .arduinoString, .plain⟩,
    ⟨"MQTT_TOPIC_IN", false, .arduinoString, .plain⟩,
    ⟨"MY_MQTT_PORT", true, .short, .plain⟩,
    ⟨"MY_MQTT_USER", true, .char, .pointer false⟩,
    ⟨"MY_MQTT_PASS", true, .char, .pointer false⟩ ]

/-- Whether the declared variable itself may be given a new value (`x = e;`):
a plain object unless it is `const`, a pointer unless the pointer is `const`,
never an array as a whole. -/
def Decl.reassignable (d : Decl) : Bool :=
  match d.shape with
  | .plain => !d.constBase
  | .array _ => false
  | .pointer constPointer => !constPointer

/-- Whether what the variable holds may be written through it (`x[i] = e`,
`*x = e`, a mutating member function): exactly when the base type is not
`const`. -/
def Decl.contentsWritable (d : Decl) : Bool :=
  !d.constBase

/-- No mutation is possible: neither reassignment nor a write to the contents. -/
def Decl.immutable (d : Decl) : Bool :=
  !d.reassignable && !d.contentsWritable

/-- The text pointers of `config.h`: the `char *` declarations. -/
def textPointers : List Decl :=
  configDecls.filter fun d =>
    match d.base, d.shape with
    | .char, .pointer _ => true
    | _, _ => false

/-! ## Properties the specification asks of the values -/

/-- A character allowed in a host-name label: ASCII letter, digit or hyphen. -/
def isHostLabelChar (c : Char) : Bool :=
  c.isAlpha || c.isDigit || c == '-'

/-- A valid host-name label: 1 to 63 characters, each a letter, a digit or a
hyphen, with no hyphen at either end. -/
def validHostLabel (s : String) : Bool :=
  let cs := s.toList
  decide (1 ≤ cs.length) && decide (cs.length ≤ 63) && cs.all isHostLabelChar
    && cs.head? != some '-' && cs.getLast? != some '-'

/-- The same shape of label with the underscore allowed as well. -/
def validHostLabelUnderscore (s : String) : Bool :=
  let cs := s.toList
  decide (1 ≤ cs.length) && decide (cs.length ≤ 63)
    && cs.all (fun c => isHostLabelChar c || c == '_')
    && cs.head? != some '-' && cs.getLast? != some '-'

/-- A value lies in the port range 1 to 65535. -/
def inPortRange (p : Int) : Prop :=
  1 ≤ p ∧ p ≤ 65535

instance (p : Int) : Decidable (inPortRange p) := by
  unfold inPortRange; infer_instance

/-- The value `x` is representable in a signed type of `w` bits. -/
def fitsSigned (w : Nat) (x : Int) : Prop :=
  -(2 ^ (w - 1)) ≤ x ∧ x < 2 ^ (w - 1)

/-- A well-formed 4-byte address: exactly 4 components, each in 0 to 255. -/
def wellFormedAddress (a : List Nat) : Bool :=
  a.length == 4 && a.all fun b => decide (b ≤ 255)

/-- Two consecutive `/` occur somewhere in the character list. -/
def hasEmptyLevel : List Char → Bool
  | [] => false
  | c :: cs => (c == '/' && cs.head? == some '/') || hasEmptyLevel cs

/-- Valid topic path: non-empty, no wildcard, no NUL, no `/` at either end,
no empty level. -/
def validTopic (s : String) : Bool :=
  let cs := s.toList
  !cs.isEmpty && cs.all (fun c => c != '+' && c != '#' && c.toNat != 0)
    && cs.head? != some '/' && cs.getLast? != some '/' && !hasEmptyLevel cs

/-- Octet by octet bitwise AND of an address with a mask. -/
def maskAddress (addr mask : List Nat) : List Nat :=
  List.zipWith (fun a m => a &&& m) addr mask

/-- The octets of an address read as one big-endian number. -/
def toU32 (a : List Nat) : Nat :=
  a.foldl (fun acc b => acc * 256 + b) 0

/-- Network address of `addr` under `mask`, as a 32-bit number. -/
def networkOf (addr mask : List Nat) : Nat :=
  toU32 addr &&& toU32 mask

/-- Broadcast address of the subnet of `addr` under `mask`: the network
address with every host bit set. -/
def broadcastOf (addr mask : List Nat) : Nat :=
  networkOf addr mask ||| ((2 ^ 32 - 1) ^^^ toU32 mask)

/-! ## Lemmas on machine integers -/

/-- A non-negative value below `2 ^ w` is stored unchanged in an unsigned type
of `w` bits. -/
theorem wrapUnsigned_of_lt (w : Nat) (x : Int) (h0 : 0 ≤ x) (h : x < 2 ^ w) :
    wrapUnsigned w x = x :=
  Int.emod_eq_of_lt h0 h

/-- A value that fits a signed type of `w` bits is stored unchanged in it. -/
theorem wrapSigned_of_fits (w : Nat) (hw : 1 ≤ w) (x : Int) (h : fitsSigned w x) :
    wrapSigned w x = x := by
  obtain ⟨hlo, hhi⟩ := h
  have hpow : (2 : Int) ^ w = 2 * 2 ^ (w - 1) := by
    obtain ⟨k, rfl⟩ : ∃ k, w = k + 1 := ⟨w - 1, by omega⟩
    simp [pow_succ, mul_comm]
  unfold wrapSigned
  simp only [hpow]
  generalize (2 : Int) ^ (w - 1) = H at *
  by_cases hx : 0 ≤ x
  · have hm : x % (2 * H) = x := Int.emod_eq_of_lt hx (by omega)
    rw [hm, if_pos hhi]
  · have hm : x % (2 * H) = x + 2 * H := by
      rw [← Int.add_emod_self]
      exact Int.emod_eq_of_lt (by omega) (by omega)
    rw [hm, if_neg (by omega)]
    omega

/-- Powers of two grow with the exponent (over the integers). -/
theorem two_pow_le_two_pow (a b : Nat) (h : a ≤ b) : (2 : Int) ^ a ≤ 2 ^ b := by
  obtain ⟨k, rfl⟩ : ∃ k, b = a + k := ⟨b - a, by omega⟩
  rw [pow_add]
  have h1 : (1 : Int) ≤ 2 ^ k := one_le_pow₀ (by norm_num)
  have h2 : (0 : Int) < 2 ^ a := by positivity
  nlinarith

/-! ## C1: immutability of the declarations -/

/-- C1, as stated, fails: not every declaration of `config.h` is immutable.
`MQTT_TOPIC_OUT` and `MQTT_TOPIC_IN` are declared without `const` (they can be
reassigned and modified), and a text pointer such as `MY_WIFI_SSID` is a
non-`const` pointer (it can be made to point elsewhere). -/
theorem config_decls_not_all_immutable :
    ¬ (∀ d ∈ configDecls, d.immutable = true) ∧
    (∃ d ∈ configDecls, d.name = "MQTT_TOPIC_OUT" ∧ d.reassignable = true ∧
      d.contentsWritable = true) ∧
    (∃ d ∈ configDecls, d.name = "MQTT_TOPIC_IN" ∧ d.reassignable = true ∧
      d.contentsWritable = true) ∧
    (∃ d ∈ textPointers, d.name = "MY_WIFI_SSID" ∧ d.reassignable = true) := by
  decide

/-- C1, amended: the declarations of `config.h` fall into three groups.  The
numeric constants and the five byte arrays are immutable; each of the ten text
pointers points to `const` characters (no write to the contents through it) but
is itself a reassignable pointer; `MQTT_TOPIC_OUT` and `MQTT_TOPIC_IN` are
non-`const` `String` objects, reassignable and modifiable. -/
theorem config_decls_mutability :
    (configDecls.filter Decl.immutable).map Decl.name =
      ["UDP_LOG_PORT", "UDP_LOG_PC_IP_BYTES", "NET_LOCAL_IP_BYTES", "NET_GATEWAY_BYTES",
       "NET_MASK_BYTES", "NET_DNS_BYTES", "PUBLISH_TIME", "MQTT_MAXIMUM_PACKET_SIZE",
       "MY_MQTT_PORT"] ∧
    (configDecls.filter fun d => d.reassignable && !d.contentsWritable) = textPointers ∧
    textPointers.map Decl.name =
      ["MY_WIFI_SSID", "MY_WIFI_PASSWORD", "NET_MDNSNAME", "NET_HOSTNAME", "MY_OTA_NAME",
       "MY_OTA_PASS_HASH", "MQTT_SERVER", "MQTT_CLIENT_ID", "MY_MQTT_USER", "MY_MQTT_PASS"] ∧
    (configDecls.filter fun d => d.reassignable && d.contentsWritable).map Decl.name =
      ["MQTT_TOPIC_OUT", "MQTT_TOPIC_IN"] ∧
    (configDecls.filter fun d => !d.reassignable && d.contentsWritable) = [] := by
  decide

/-! ## C2: host names -/

/-- C2, as stated, fails: none of `NET_MDNSNAME`, `NET_HOSTNAME`, `MY_OTA_NAME`
is a valid host-name label, because each contains an underscore, which is
neither a letter, a digit nor a hyphen. -/
theorem host_names_not_valid_labels :
    ¬ (validHostLabel NET_MDNSNAME = true ∧ validHostLabel NET_HOSTNAME = true ∧
        validHostLabel MY_OTA_NAME = true) ∧
    validHostLabel NET_MDNSNAME = false ∧ validHostLabel NET_HOSTNAME = false ∧
    validHostLabel MY_OTA_NAME = false ∧
    isHostLabelChar '_' = false ∧
    '_' ∈ NET_MDNSNAME.toList ∧ '_' ∈ NET_HOSTNAME.toList ∧ '_' ∈ MY_OTA_NAME.toList := by
  decide

/-- C2, amended: each of `NET_MDNSNAME`, `NET_HOSTNAME` and `MY_OTA_NAME` is
non-empty, at most 63 characters long, made only of ASCII letters, digits,
hyphens and underscores, and neither starts nor ends with a hyphen. -/
theorem host_names_valid_with_underscore :
    validHostLabelUnderscore NET_MDNSNAME = true ∧
    validHostLabelUnderscore NET_HOSTNAME = true ∧
    validHostLabelUnderscore MY_OTA_NAME = true := by
  decide

/-! ## C3: ports -/

/-- C3: the stored values of `MY_MQTT_PORT` (1883) and of `UDP_LOG_PORT` (6464,
for every width of `word` of at least 16 bits) lie in 1 to 65535, so neither
is outside the range on which the port check fails. -/
theorem ports_in_range (wordBits : Nat) (h : 16 ≤ wordBits) :
    MY_MQTT_PORT = 1883 ∧ inPortRange MY_MQTT_PORT ∧
    UDP_LOG_PORT wordBits = 6464 ∧ inPortRange (UDP_LOG_PORT wordBits) := by
  have hw : UDP_LOG_PORT wordBits = 6464 := by
    have h16 : (2 : Int) ^ 16 ≤ 2 ^ wordBits := two_pow_le_two_pow 16 wordBits h
    exact wrapUnsigned_of_lt wordBits 6464 (by norm_num) (by norm_num at h16 ⊢; omega)
  refine ⟨by decide, by decide, hw, ?_⟩
  rw [hw]; decide

/-- C3 at a 16-bit `word`. -/
theorem ports_in_range_witness :
    16 ≤ 16 ∧ inPortRange MY_MQTT_PORT ∧ inPortRange (UDP_LOG_PORT 16) :=
  ⟨by decide, (ports_in_range 16 (by decide)).2.1, (ports_in_range 16 (by decide)).2.2.2⟩

/-! ## C4: required text fields -/

/-- C4: each of the ten required text constants has length at least 1, so none
of them is an empty field; in particular `MQTT_CLIENT_ID` is not the empty
string. -/
theorem required_text_nonempty :
    1 ≤ MY_WIFI_SSID.length ∧ 1 ≤ MY_WIFI_PASSWORD.length ∧ 1 ≤ MQTT_CLIENT_ID.length ∧
    1 ≤ MQTT_SERVER.length ∧ 1 ≤ MY_OTA_PASS_HASH.length ∧ 1 ≤ NET_MDNSNAME.length ∧
    1 ≤ NET_HOSTNAME.length ∧ 1 ≤ MY_OTA_NAME.length ∧ 1 ≤ MQTT_TOPIC_OUT.length ∧
    1 ≤ MQTT_TOPIC_IN.length ∧
    MQTT_CLIENT_ID ≠ "" := by
  decide

/-! ## C5: timing and size constants -/

/-- C5: `PUBLISH_TIME` (10000) and `MQTT_MAXIMUM_PACKET_SIZE` (1024) are
strictly positive, and each is stored without overflow: 10000 fits a signed
32-bit `long`, 1024 fits a signed `int` of any width of at least 16 bits. -/
theorem timing_size_positive (intBits : Nat) (h : 16 ≤ intBits) :
    0 < PUBLISH_TIME ∧ PUBLISH_TIME = 10000 ∧ fitsSigned 32 10000 ∧
    0 < MQTT_MAXIMUM_PACKET_SIZE intBits ∧ MQTT_MAXIMUM_PACKET_SIZE intBits = 1024 ∧
    fitsSigned intBits 1024 := by
  have hfit : fitsSigned intBits 1024 := by
    have h15 : (2 : Int) ^ 15 ≤ 2 ^ (intBits - 1) :=
      two_pow_le_two_pow 15 (intBits - 1) (by omega)
    unfold fitsSigned
    norm_num at h15 ⊢
    omega
  have hv : MQTT_MAXIMUM_PACKET_SIZE intBits = 1024 :=
    wrapSigned_of_fits intBits (by omega) 1024 hfit
  refine ⟨by decide, by decide, by unfold fitsSigned; decide, ?_, hv, hfit⟩
  rw [hv]; decide

/-- C5 at a 16-bit `int`. -/
theorem timing_size_positive_witness :
    16 ≤ 16 ∧ 0 < PUBLISH_TIME ∧ 0 < MQTT_MAXIMUM_PACKET_SIZE 16 :=
  ⟨by decide, (timing_size_positive 16 (by decide)).1,
    (timing_size_positive 16 (by decide)).2.2.2.1⟩

/-! ## C6: addresses -/

/-- C6: each of the five address constants has exactly 4 components, every
component in 0 to 255 (the initialisers are stored unchanged in `byte`), so
none of them is a malformed address. -/
theorem addresses_well_formed :
    UDP_LOG_PC_IP_BYTES = [192, 168, 178, 100] ∧ NET_LOCAL_IP_BYTES = [192, 168, 178, 155] ∧
    NET_GATEWAY_BYTES = [192, 168, 178, 1] ∧ NET_MASK_BYTES = [255, 255, 255, 0] ∧
    NET_DNS_BYTES = [8, 8, 8, 8] ∧
    wellFormedAddress UDP_LOG_PC_IP_BYTES = true ∧ wellFormedAddress NET_LOCAL_IP_BYTES = true ∧
    wellFormedAddress NET_GATEWAY_BYTES = true ∧ wellFormedAddress NET_MASK_BYTES = true ∧
    wellFormedAddress NET_DNS_BYTES = true := by
  decide

/-! ## C7: topics -/

/-- C7: `MQTT_TOPIC_OUT` and `MQTT_TOPIC_IN` are valid topic paths: non-empty,
without `+`, `#` or NUL, without `/` at either end and without an empty level. -/
theorem topics_valid :
    validTopic MQTT_TOPIC_OUT = true ∧ validTopic MQTT_TOPIC_IN = true ∧
    MQTT_TOPIC_OUT.toList ≠ [] ∧ MQTT_TOPIC_IN.toList ≠ [] ∧
    '+' ∉ MQTT_TOPIC_OUT.toList ∧ '#' ∉ MQTT_TOPIC_OUT.toList ∧
    '+' ∉ MQTT_TOPIC_IN.toList ∧ '#' ∉ MQTT_TOPIC_IN.toList ∧
    Char.ofNat 0 ∉ MQTT_TOPIC_OUT.toList ∧ Char.ofNat 0 ∉ MQTT_TOPIC_IN.toList ∧
    MQTT_TOPIC_OUT.toList.head? ≠ some '/' ∧ MQTT_TOPIC_OUT.toList.getLast? ≠ some '/' ∧
    MQTT_TOPIC_IN.toList.head? ≠ some '/' ∧ MQTT_TOPIC_IN.toList.getLast? ≠ some '/' ∧
    hasEmptyLevel MQTT_TOPIC_OUT.toList = false ∧
    hasEmptyLevel MQTT_TOPIC_IN.toList = false := by
  decide

/-! ## C8 and C9: the static network settings -/

/-- C8: under `NET_MASK_BYTES` the device address, the gateway and the UDP log
receiver all have the network address 192.168.178.0, and the device address
differs from the gateway address and from the log receiver address. -/
theorem static_network_consistent :
    maskAddress NET_LOCAL_IP_BYTES NET_MASK_BYTES = [192, 168, 178, 0] ∧
    maskAddress NET_GATEWAY_BYTES NET_MASK_BYTES = maskAddress NET_LOCAL_IP_BYTES NET_MASK_BYTES ∧
    maskAddress UDP_LOG_PC_IP_BYTES NET_MASK_BYTES =
      maskAddress NET_LOCAL_IP_BYTES NET_MASK_BYTES ∧
    NET_LOCAL_IP_BYTES ≠ NET_GATEWAY_BYTES ∧ NET_LOCAL_IP_BYTES ≠ UDP_LOG_PC_IP_BYTES := by
  decide

/-- C9: read as a 32-bit big-endian number, `NET_MASK_BYTES` equals
`2^32 - 2^(32-k)` for a prefix length `k` between 1 and 30 (namely 24): its 24
leading bits are one and its 8 trailing bits are zero; and the device address
is neither the network address nor the broadcast address of that subnet. -/
theorem netmask_contiguous :
    (∃ k : Nat, 1 ≤ k ∧ k ≤ 30 ∧ toU32 NET_MASK_BYTES = 2 ^ 32 - 2 ^ (32 - k)) ∧
    toU32 NET_MASK_BYTES = 2 ^ 32 - 2 ^ (32 - 24) ∧
    (List.range 32).map (toU32 NET_MASK_BYTES).testBit =
      List.replicate 8 false ++ List.replicate 24 true ∧
    toU32 NET_LOCAL_IP_BYTES ≠ networkOf NET_LOCAL_IP_BYTES NET_MASK_BYTES ∧
    toU32 NET_LOCAL_IP_BYTES ≠ broadcastOf NET_LOCAL_IP_BYTES NET_MASK_BYTES ∧
    networkOf NET_LOCAL_IP_BYTES NET_MASK_BYTES = toU32 [192, 168, 178, 0] ∧
    broadcastOf NET_LOCAL_IP_BYTES NET_MASK_BYTES = toU32 [192, 168, 178, 255] := by
  refine ⟨⟨24, by decide, by decide, by decide⟩, by decide, by decide, by decide, by decide,
    by decide, by decide⟩

/-! ## C10: the type of `MY_MQTT_PORT` -/

/-- C10, as stated, fails on both halves: the port 40000 is in 1 to 65535 but
is stored in a `short` as -25536, outside that range; and 70000 is stored as
4464, which is inside the range. -/
theorem short_cannot_hold_every_port :
    ¬ (∀ p : Int, 1 ≤ p → p ≤ 65535 → inPortRange (toShort p)) ∧
    toShort 40000 = -25536 ∧ ¬ inPortRange (toShort 40000) ∧
    toShort 70000 = 4464 ∧ inPortRange (toShort 70000) := by
  refine ⟨fun hall => ?_, by decide, by decide, by decide, by decide⟩
  exact absurd (hall 40000 (by decide) (by decide)) (by decide)

/-- C10, amended: a port `p` of 1 to 65535 stored in the `short` type of
`MY_MQTT_PORT` is unchanged when `p ≤ 32767` and becomes the negative value
`p - 65536` when `p ≥ 32768`; so the stored value is again in 1 to 65535 exactly
when `p ≤ 32767`.  The out-of-range value 70000 is stored as 4464. -/
theorem short_port_storage (p : Int) (h1 : 1 ≤ p) (h2 : p ≤ 65535) :
    (p ≤ 32767 → toShort p = p) ∧
    (32768 ≤ p → toShort p = p - 65536 ∧ toShort p < 0) ∧
    (inPortRange (toShort p) ↔ p ≤ 32767) ∧
    toShort 70000 = 4464 := by
  have hm : p % 65536 = p := Int.emod_eq_of_lt (by omega) (by omega)
  have hs : toShort p = if p < 32768 then p else p - 65536 := by
    simp only [toShort, wrapSigned]
    norm_num
    rw [hm]
  refine ⟨fun h => ?_, fun h => ?_, ?_, by decide⟩
  · rw [hs, if_pos (by omega)]
  · rw [hs, if_neg (by omega)]
    exact ⟨rfl, by omega⟩
  · unfold inPortRange
    rw [hs]
    split <;> omega

/-- C10, amended, at the shipped port 1883 and at the port 40000. -/
theorem short_port_storage_witness :
    (1 ≤ (1883 : Int) ∧ (1883 : Int) ≤ 65535 ∧ toShort 1883 = 1883) ∧
    (1 ≤ (40000 : Int) ∧ (40000 : Int) ≤ 65535 ∧ toShort 40000 = 40000 - 65536) :=
  ⟨⟨by decide, by decide, (short_port_storage 1883 (by decide) (by decide)).1 (by decide)⟩,
    ⟨by decide, by decide,
      ((short_port_storage 40000 (by decide) (by decide)).2.1 (by decide)).1⟩⟩

end NoiseTempMeter
